import Mathlib

/-!
Verification of the state-machine / worker-pool core of `example_app.py`.

The embedding below translates the Python classes into Lean definitions:

* `State.open_window` / `State.close_window` — the guarded base-class window
  operations (window handles are modelled as `Option ℕ`, a fresh handle being
  supplied by the caller where the source creates an `sg.Window`).
* `InitialState.transition_state`, `StateA.transition_state`,
  `StateB.transition_state`, `StateC.transition_state` — the per-variant
  transition functions.  The GUI window of the initial state is modelled by
  the one piece of it the logic touches: its progress bar (value, visibility).
* `DownloadManager` — the task queue (`task_queue` is a list of
  `Option SleepTask`; `none` entries are the poison sentinels), with
  `add_task` and `stop`.
* `StateMachine.applyTransition` — the dispatch on the result of a primary
  transition (lines 388–400 of the source).
* `StateMachine.handleSecondaryEvent` — the secondary-window loop
  (lines 401–410 of the source).
* `poolStep` / `poolRun` — an interleaving semantics for the worker threads:
  each scheduled worker, if still alive, atomically dequeues the head of the
  shared FIFO queue; a `none` (poison) item terminates it, a task item is
  recorded as one `run()` invocation.
* `SleepTask.runIter` — one iteration of `SleepTask.run`'s loop at a given
  elapsed time, with Python's faulting division (`ZeroDivisionError`) and
  faulting call of a `None` callback (`TypeError`) made explicit.
-/

/-- Python runtime faults that the modelled code can raise. -/
inductive PyError where
  | zeroDivisionError
  | typeErrorNoneNotCallable
  | attributeErrorNoneClose
deriving DecidableEq, Repr

/-- The `values` mapping handed to `transition_state`: the two keys the code
reads are `"file_url"` (a string) and `"-PROGRESS-"` (a numeric progress). -/
structure Values where
  file_url : String
  progress : ℚ
deriving DecidableEq, Repr

/-- The progress-bar element of the initial state's window: rendered value
and visibility. -/
structure ProgressBar where
  value : ℚ
  visible : Bool
deriving DecidableEq, Repr

/-- `State.open_window` (base class): `if not self.window:` create a window.
The freshly created window handle is passed in by the caller. -/
def State.open_window (w : Option ℕ) (fresh : ℕ) : Option ℕ :=
  match w with
  | some h => some h
  | none => some fresh

/-- `State.close_window` (base class): `if self.window:` close it and set the
field to `None`; otherwise the field is left as `None`.  Never faults. -/
def State.close_window (w : Option ℕ) : Option ℕ :=
  match w with
  | some _ => none
  | none => none

/-- `StateA.open_window` (override): creates a window unconditionally,
replacing whatever handle was there. -/
def StateA.open_window (_w : Option ℕ) (fresh : ℕ) : Option ℕ :=
  some fresh

/-- `StateA.close_window` (override): `self.window.close()` with no guard —
when the window field is `None` this is `None.close()`, an AttributeError. -/
def StateA.close_window (w : Option ℕ) : Except PyError (Option ℕ) :=
  match w with
  | some _ => .ok none
  | none => .error .attributeErrorNoneClose

/-- `StateC.open_window` (override): same guard as the base class
(`if not self.window:`), plus GUI-only extras (`bring_to_front`). -/
def StateC.open_window (w : Option ℕ) (fresh : ℕ) : Option ℕ :=
  match w with
  | some h => some h
  | none => some fresh

/-- Everything `InitialState.transition_state` returns or mutates:
the `(next_state_name, data)` pair, the state's own window (its progress
bar), the `secondary_windows` list (when one was supplied), and whether
`states["state_c"].open_window()` was invoked. -/
structure InitTransOut where
  result : Option String × Option String
  window : Option ProgressBar
  secondary_windows : Option (List String)
  stateCOpened : Bool
deriving DecidableEq, Repr

/-- `InitialState.transition_state` (source lines 84–114).  The window is
modelled by its progress bar; the `secondary_windows` parameter, when
supplied, receives `"state_c"` in the `-go_to_state_c-` branch.  In the
`-PROGRESS-` branch the bar is set to the carried value and made visible,
then reset to `(0, hidden)` when the value is ≥ 100. -/
def InitialState.transition_state (name : String) (window : Option ProgressBar)
    (event : String) (values : Values) (secondary_windows : Option (List String)) :
    InitTransOut :=
  if event = "-go_to_state_a-" then
    { result := (some "state_a", none), window := window,
      secondary_windows := secondary_windows, stateCOpened := false }
  else if event = "-go_to_state_b-" then
    { result := (some "state_b", none), window := window,
      secondary_windows := secondary_windows, stateCOpened := false }
  else if event = "-go_to_state_c-" then
    { result := (none, none), window := window,
      secondary_windows := secondary_windows.map (fun l => l ++ ["state_c"]),
      stateCOpened := true }
  else if event = "-download-" then
    if values.file_url ≠ "" then
      { result := (some "download", some values.file_url), window := window,
        secondary_windows := secondary_windows, stateCOpened := false }
    else
      { result := (some name, none), window := window,
        secondary_windows := secondary_windows, stateCOpened := false }
  else if event = "-PROGRESS-" then
    { result := (none, none),
      window := window.map (fun _ =>
        if (100 : ℚ) ≤ values.progress then ⟨0, false⟩ else ⟨values.progress, true⟩),
      secondary_windows := secondary_windows, stateCOpened := false }
  else
    { result := (some name, none), window := window,
      secondary_windows := secondary_windows, stateCOpened := false }

/-- `StateA.transition_state` (source lines 143–151): data is always `None`. -/
def StateA.transition_state (name : String) (event : String) :
    Option String × Option String :=
  if event = "-go_to_state_b-" then (some "state_b", none)
  else if event = "-go_to_initial-" then (some "initial", none)
  else (some name, none)

/-- `StateB.transition_state` (source lines 171–179). -/
def StateB.transition_state (name : String) (event : String) :
    Option String × Option String :=
  if event = "-go_to_state_a-" then (some "state_a", none)
  else if event = "-go_to_initial-" then (some "initial", none)
  else (some name, none)

/-- `StateC.transition_state` (source lines 204–212): on `-close_state_c-`
the next-state name becomes `None` and `self.close_window()` (the guarded
base-class one) runs.  The `values` and `secondary_windows` parameters are
unused in the source and omitted.  Returns the `(next, data)` pair together
with the window field after the call. -/
def StateC.transition_state (name : String) (window : Option ℕ) (event : String) :
    (Option String × Option String) × Option ℕ :=
  if event = "-close_state_c-" then
    ((none, none), State.close_window window)
  else
    ((some name, none), window)

/-- The callback bound to a task is modelled by an identifier (`Option ℕ`,
`none` being Python's `None`). -/
structure SleepTask where
  seconds : ℚ
  progress_callback : Option ℕ
deriving DecidableEq, Repr

/-- `SleepTask(10)` as constructed in `StateMachine.run`'s download branch:
`seconds = 10`, `progress_callback` left at its default `None`. -/
def SleepTask.ofDownloadBranch : SleepTask :=
  { seconds := 10, progress_callback := none }

/-- `SleepTask()` with all defaults (`seconds=4, progress_callback=None`). -/
def SleepTask.defaultTask : SleepTask :=
  { seconds := 4, progress_callback := none }

/-- `DownloadManager`: the shared FIFO queue (items are `some task` or the
poison sentinel `none`), the worker count, and the pool progress callback. -/
structure DownloadManager where
  task_queue : List (Option SleepTask)
  num_workers : ℕ
  progress_callback : Option ℕ
deriving DecidableEq, Repr

/-- `DownloadManager.add_task`: overwrite the task's callback with the
pool's, then `put` it at the back of the FIFO queue.  No check whatsoever
is made against shutdown. -/
def DownloadManager.add_task (dm : DownloadManager) (task : SleepTask) :
    DownloadManager :=
  { dm with task_queue :=
      dm.task_queue ++ [some { task with progress_callback := dm.progress_callback }] }

/-- `DownloadManager.stop`: `put(None)` once per worker. -/
def DownloadManager.stop (dm : DownloadManager) : DownloadManager :=
  { dm with task_queue := dm.task_queue ++ List.replicate dm.num_workers none }

/-- The parts of `StateMachine` state that primary dispatch touches:
the registry keys, the current primary state's name, the
`secondary_windows` list (by state name), and the download manager. -/
structure Machine where
  states : List String
  current : String
  secondary : List String
  dm : DownloadManager
deriving DecidableEq, Repr

/-- The registry keys set up in `StateMachine.__init__`. -/
def StateMachine.stateNames : List String :=
  ["initial", "state_a", "state_b", "state_c"]

/-- Outcome of one dispatch: either the loop continues with a new machine
state, or an exception is raised.  The embedded dispatch never produces
`fatal`: the source has no raising branch. -/
inductive StepOutcome where
  | fatal (msg : String)
  | next (m : Machine)
deriving DecidableEq, Repr

/-- `StateMachine.run`, lines 388–400: dispatch on the name returned by the
primary transition.  `== "download"` enqueues `SleepTask(10)` (the payload
`data` is only printed); `== "state_c"` appends to `secondary_windows` and
opens the window; a registered name swaps the primary state; anything else —
including `None`, which fails all three tests — falls off the `if`/`elif`
chain and nothing happens. -/
def StateMachine.applyTransition (m : Machine) (next_state_name : Option String)
    (_data : Option String) : StepOutcome :=
  match next_state_name with
  | some name =>
    if name = "download" then
      .next { m with dm := m.dm.add_task SleepTask.ofDownloadBranch }
    else if name = "state_c" then
      .next { m with secondary := m.secondary ++ ["state_c"] }
    else if name ∈ m.states then
      .next { m with current := name }
    else
      .next m
  | none => .next m

/-- One entry of the `secondary_windows` list: the state's name and its
window handle. -/
structure SecondaryEntry where
  name : String
  window : Option ℕ
deriving DecidableEq, Repr

/-- `StateMachine.run`, lines 401–410: iterate over a snapshot
(`secondary_windows[:]`) of the secondary list; on the entry whose window
matches the event's window, run its transition (the secondaries are all
`StateC`); if it returns the close sentinel, remove that entry from the live
list and `break`; otherwise keep scanning.  Returns the list after the loop
and the names whose `close_window` ran. -/
def StateMachine.handleSecondaryEvent (window : ℕ) (event : String) :
    List SecondaryEntry → List SecondaryEntry × List String
  | [] => ([], [])
  | e :: rest =>
    if some window = e.window then
      match StateC.transition_state e.name e.window event with
      | ((none, _), _) => (rest, [e.name])
      | ((some _, _), _) =>
        let r := StateMachine.handleSecondaryEvent window event rest
        (e :: r.1, r.2)
    else
      let r := StateMachine.handleSecondaryEvent window event rest
      (e :: r.1, r.2)

/-- Python's `/` on rationals: raises `ZeroDivisionError` on a zero
denominator instead of returning a junk value. -/
def pydiv (a b : ℚ) : Except PyError ℚ :=
  if b = 0 then .error .zeroDivisionError else .ok (a / b)

/-- Calling the progress callback: calling `None` raises a TypeError;
a real callback is recorded as (callback id, argument). -/
def callCallback (cb : Option ℕ) (p : ℚ) : Except PyError (ℕ × ℚ) :=
  match cb with
  | none => .error .typeErrorNoneNotCallable
  | some f => .ok (f, p)

/-- One iteration of `SleepTask.run`'s loop (source lines 270–279) at a given
elapsed time: `progress = (elapsed_time / self.seconds) * 100`, then
`self.progress_callback(progress)`, then `break` when `progress > 100`.
Returns the reported progress and whether the loop breaks. -/
def SleepTask.runIter (t : SleepTask) (elapsed : ℚ) : Except PyError (ℚ × Bool) :=
  match pydiv elapsed t.seconds with
  | .error e => .error e
  | .ok q =>
    let progress := q * 100
    match callCallback t.progress_callback progress with
    | .error e => .error e
    | .ok _ => .ok (progress, decide (100 < progress))

/-- State of the worker pool under an interleaving semantics for a fixed
number `n` of worker threads: the shared queue, the set of workers still in
their `while True` loop, and the tasks on which `run()` has been invoked, in
dequeue order. -/
structure PoolState (n : ℕ) where
  queue : List (Option SleepTask)
  alive : Finset (Fin n)
  executed : List SleepTask
deriving DecidableEq

/-- One scheduling step of worker `w` (`DownloadManager.worker`, source lines
316–325): a dead worker does nothing; a live worker blocks on an empty queue
(no-op step); otherwise it atomically dequeues the head — a `None` makes it
`break` (it dies), a task is executed (`task.run()`). -/
def poolStep {n : ℕ} (s : PoolState n) (w : Fin n) : PoolState n :=
  if w ∈ s.alive then
    match s.queue with
    | [] => s
    | none :: rest => { queue := rest, alive := s.alive.erase w, executed := s.executed }
    | some t :: rest => { queue := rest, alive := s.alive, executed := s.executed ++ [t] }
  else s

/-- Run the pool under an arbitrary finite schedule of worker ids. -/
def poolRun {n : ℕ} (s : PoolState n) : List (Fin n) → PoolState n
  | [] => s
  | w :: ws => poolRun (poolStep s w) ws

/-- The pool as it stands after `k` tasks were submitted and
`DownloadManager.stop` enqueued one sentinel per worker: all `n` workers
alive, nothing executed yet. -/
def poolInit (n : ℕ) (tasks : List SleepTask) : PoolState n :=
  { queue := tasks.map some ++ List.replicate n none,
    alive := Finset.univ,
    executed := [] }

/-- Invariant of every reachable pool state whose initial queue was
`tasks.map some ++ replicate n none ++ tail`: some prefix `done` of the
tasks has been dequeued and executed (in FIFO order), `m` sentinels are
still queued, exactly `m` workers are still alive, and a sentinel has been
consumed (`m < n`) only after every task was dequeued. -/
def PoolInv (n : ℕ) (tasks : List SleepTask) (tail : List (Option SleepTask))
    (s : PoolState n) : Prop :=
  ∃ done rest m, tasks = done ++ rest ∧ m ≤ n ∧
    s.queue = rest.map some ++ List.replicate m none ++ tail ∧
    s.executed = done ∧
    s.alive.card = m ∧
    (m < n → rest = [])

theorem poolInv_init (n : ℕ) (tasks : List SleepTask)
    (tail : List (Option SleepTask)) :
    PoolInv n tasks tail { queue := tasks.map some ++ List.replicate n none ++ tail,
                           alive := Finset.univ, executed := [] } := by
  refine ⟨[], tasks, n, rfl, le_refl n, rfl, rfl, ?_, ?_⟩
  · simp
  · intro h; exact absurd h (lt_irrefl n)

theorem poolInv_step {n : ℕ} {tasks : List SleepTask}
    {tail : List (Option SleepTask)} {s : PoolState n}
    (hinv : PoolInv n tasks tail s) (w : Fin n) :
    PoolInv n tasks tail (poolStep s w) := by
  obtain ⟨done, rest, m, htasks, hmn, hq, hex, hcard, hlast⟩ := hinv
  unfold poolStep
  by_cases hw : w ∈ s.alive
  · have hm1 : 1 ≤ m := by
      rw [← hcard]
      exact Finset.card_pos.mpr ⟨w, hw⟩
    simp only [hw, if_true]
    cases rest with
    | nil =>
      -- no tasks left queued: the head, if any, is a sentinel
      cases hm : m with
      | zero => omega
      | succ m' =>
        subst hm
        rw [hq]
        simp only [List.map_nil, List.replicate_succ, List.nil_append, List.cons_append]
        refine ⟨done, [], m', by simpa using htasks, by omega, rfl, hex, ?_, fun _ => rfl⟩
        rw [Finset.card_erase_of_mem hw, hcard]
        omega
    | cons t rest' =>
      rw [hq]
      simp only [List.map_cons, List.cons_append]
      refine ⟨done ++ [t], rest', m, by simpa using htasks, hmn, rfl, by rw [hex], hcard, ?_⟩
      intro hlt
      exact absurd (hlast hlt) (by simp)
  · simpa [hw] using ⟨done, rest, m, htasks, hmn, hq, hex, hcard, hlast⟩

theorem poolInv_run {n : ℕ} {tasks : List SleepTask}
    {tail : List (Option SleepTask)} {s : PoolState n}
    (hinv : PoolInv n tasks tail s) (sched : List (Fin n)) :
    PoolInv n tasks tail (poolRun s sched) := by
  induction sched generalizing s with
  | nil => exact hinv
  | cons w ws ih => exact ih (poolInv_step hinv w)

/-- C1: for every state variant (InitialState, StateA, StateB, StateC),
`transition_state` on an event identifier the state does not recognize
returns `(the state's own name, None)`; and feeding that own-name result
through the primary dispatch leaves the machine unchanged (stay invariant). -/
theorem unrecognized_event_stays :
    (∀ name window event values sec,
      event ∉ ["-go_to_state_a-", "-go_to_state_b-", "-go_to_state_c-",
               "-download-", "-PROGRESS-"] →
      (InitialState.transition_state name window event values sec).result
        = (some name, none)) ∧
    (∀ name event, event ∉ ["-go_to_state_b-", "-go_to_initial-"] →
      StateA.transition_state name event = (some name, none)) ∧
    (∀ name event, event ∉ ["-go_to_state_a-", "-go_to_initial-"] →
      StateB.transition_state name event = (some name, none)) ∧
    (∀ name window event, event ≠ "-close_state_c-" →
      (StateC.transition_state name window event).1 = (some name, none)) ∧
    (∀ (m : Machine) (data : Option String),
      m.current ≠ "download" → m.current ≠ "state_c" →
      StateMachine.applyTransition m (some m.current) data = .next m) := by
  refine ⟨?_, ?_, ?_, ?_, ?_⟩
  · intro name window event values sec h
    simp only [List.mem_cons, List.not_mem_nil, or_false, not_or] at h
    obtain ⟨h1, h2, h3, h4, h5⟩ := h
    simp [InitialState.transition_state, h1, h2, h3, h4, h5]
  · intro name event h
    simp only [List.mem_cons, List.not_mem_nil, or_false, not_or] at h
    simp [StateA.transition_state, h.1, h.2]
  · intro name event h
    simp only [List.mem_cons, List.not_mem_nil, or_false, not_or] at h
    simp [StateB.transition_state, h.1, h.2]
  · intro name window event h
    simp [StateC.transition_state, h]
  · intro m data h1 h2
    unfold StateMachine.applyTransition
    by_cases hm : m.current ∈ m.states
    · simp [h1, h2, hm]
    · simp [h1, h2, hm]

/-- C1 witness: concrete instances at the unrecognized event `"-exit-"` and a
stay dispatch. -/
theorem unrecognized_event_stays_witness :
    (InitialState.transition_state "initial" none "-exit-" ⟨"", 0⟩ none).result
      = (some "initial", none) ∧
    StateA.transition_state "state_a" "-exit-" = (some "state_a", none) ∧
    StateB.transition_state "state_b" "-exit-" = (some "state_b", none) ∧
    (StateC.transition_state "state_c" (some 1) "-exit-").1 = (some "state_c", none) ∧
    StateMachine.applyTransition
      ⟨StateMachine.stateNames, "initial", [], ⟨[], 2, none⟩⟩ (some "initial") none
      = .next ⟨StateMachine.stateNames, "initial", [], ⟨[], 2, none⟩⟩ :=
  ⟨unrecognized_event_stays.1 "initial" none "-exit-" ⟨"", 0⟩ none (by decide),
   unrecognized_event_stays.2.1 "state_a" "-exit-" (by decide),
   unrecognized_event_stays.2.2.1 "state_b" "-exit-" (by decide),
   unrecognized_event_stays.2.2.2.1 "state_c" (some 1) "-exit-" (by decide),
   unrecognized_event_stays.2.2.2.2
     ⟨StateMachine.stateNames, "initial", [], ⟨[], 2, none⟩⟩ none
     (by decide) (by decide)⟩

/-- C2: the transition table of the initial state, for every values map:
`-go_to_state_a-` goes to `"state_a"`, `-go_to_state_b-` to `"state_b"`,
`-go_to_state_c-` returns `None` and appends state C to the supplied
secondary set (opening its window), `-download-` with a non-empty
`file_url` returns `("download", url)`, and with an empty one stays. -/
theorem initial_transition_table :
    (∀ name window values sec,
      (InitialState.transition_state name window "-go_to_state_a-" values sec).result
        = (some "state_a", none)) ∧
    (∀ name window values sec,
      (InitialState.transition_state name window "-go_to_state_b-" values sec).result
        = (some "state_b", none)) ∧
    (∀ name window values sec,
      InitialState.transition_state name window "-go_to_state_c-" values (some sec)
        = { result := (none, none), window := window,
            secondary_windows := some (sec ++ ["state_c"]), stateCOpened := true }) ∧
    (∀ name window values sec, values.file_url ≠ "" →
      (InitialState.transition_state name window "-download-" values sec).result
        = (some "download", some values.file_url)) ∧
    (∀ name window values sec, values.file_url = "" →
      (InitialState.transition_state name window "-download-" values sec).result
        = (some name, none)) := by
  refine ⟨?_, ?_, ?_, ?_, ?_⟩ <;> intro name window values sec
  · simp [InitialState.transition_state]
  · simp [InitialState.transition_state]
  · simp [InitialState.transition_state]
  · intro h; simp [InitialState.transition_state, h]
  · intro h; simp [InitialState.transition_state, h]

/-- C2 witness: the two download cases at concrete values maps. -/
theorem initial_transition_table_witness :
    (InitialState.transition_state "initial" none "-download-"
      ⟨"http://x", 0⟩ none).result = (some "download", some "http://x") ∧
    (InitialState.transition_state "initial" none "-download-"
      ⟨"", 0⟩ none).result = (some "initial", none) :=
  ⟨initial_transition_table.2.2.2.1 "initial" none ⟨"http://x", 0⟩ none (by decide),
   initial_transition_table.2.2.2.2 "initial" none ⟨"", 0⟩ none rfl⟩

/-- C3 counterexample: with the registry of `StateMachine.__init__` and the
unregistered, non-sentinel target `"bogus"`, the dispatch of
`StateMachine.run` produces `.next` of the unchanged machine — it silently
falls off the `if`/`elif` chain instead of raising a fatal error
(the source has no `else` branch, so no `.fatal` outcome is possible). -/
theorem unknown_target_not_fatal_at_bogus :
    StateMachine.applyTransition
      ⟨StateMachine.stateNames, "initial", [], ⟨[], 2, none⟩⟩ (some "bogus") none
      = .next ⟨StateMachine.stateNames, "initial", [], ⟨[], 2, none⟩⟩ := by
  rfl

/-- C3 amended: a primary-transition target that is neither `"download"` nor
`"state_c"` nor a registered state name is silently ignored — the dispatch
continues with the machine completely unchanged (no error is raised). -/
theorem unknown_target_silently_ignored (m : Machine) (name : String)
    (data : Option String) (h1 : name ≠ "download") (h2 : name ≠ "state_c")
    (h3 : name ∉ m.states) :
    StateMachine.applyTransition m (some name) data = .next m := by
  simp [StateMachine.applyTransition, h1, h2, h3]

/-- C3 witness: the silent no-op at a concrete machine and target. -/
theorem unknown_target_silently_ignored_witness :
    StateMachine.applyTransition
      ⟨StateMachine.stateNames, "initial", [], ⟨[], 2, none⟩⟩
      (some "state_d") (some "payload")
      = .next ⟨StateMachine.stateNames, "initial", [], ⟨[], 2, none⟩⟩ :=
  unknown_target_silently_ignored
    ⟨StateMachine.stateNames, "initial", [], ⟨[], 2, none⟩⟩
    "state_d" (some "payload") (by decide) (by decide) (by decide)

/-- C4 counterexample: `StateA` overrides both window operations without the
base-class guards: `close_window` on a state with no window calls
`None.close()` and faults with an AttributeError, and `open_window` on an
already-open state (handle 5) replaces the handle with a fresh window
(handle 7) instead of being a no-op. -/
theorem stateA_window_ops_not_idempotent :
    StateA.close_window none = .error .attributeErrorNoneClose ∧
    StateA.open_window (some 5) 7 = some 7 ∧ some 7 ≠ some 5 :=
  ⟨rfl, rfl, by decide⟩

/-- C4 amended: the guarded base-class implementation (used by InitialState
and StateB) and StateC's override are idempotent — `open_window` on a
present handle keeps it, `close_window` without a window is a faultless
no-op — but StateA's overrides are not: its `open_window` unconditionally
creates a fresh window and its `close_window` faults when no window is
present. -/
theorem window_ops_idempotence_by_class :
    (∀ h fresh, State.open_window (some h) fresh = some h) ∧
    State.close_window none = none ∧
    (∀ h fresh, StateC.open_window (some h) fresh = some h) ∧
    (∀ w fresh, StateA.open_window w fresh = some fresh) ∧
    StateA.close_window none = .error .attributeErrorNoneClose :=
  ⟨fun _ _ => rfl, rfl, fun _ _ => rfl, fun _ _ => rfl, rfl⟩

/-- C5 counterexample: the task enqueued by the `"download"` branch does not
depend on the payload — dispatching with payload `"http://x"` and with
payload `"http://y"` yields identical machines (the branch always builds
`SleepTask(10)` and only prints the payload), although the payloads differ. -/
theorem download_task_independent_of_payload :
    StateMachine.applyTransition
      ⟨StateMachine.stateNames, "initial", [], ⟨[], 2, some 7⟩⟩
      (some "download") (some "http://x")
      = StateMachine.applyTransition
      ⟨StateMachine.stateNames, "initial", [], ⟨[], 2, some 7⟩⟩
      (some "download") (some "http://y")
    ∧ ("http://x" : String) ≠ "http://y" :=
  ⟨rfl, by decide⟩

/-- C5 amended: on the `"download"` sentinel the StateMachine constructs the
fixed task `SleepTask(10)` — the payload is not incorporated — and submits
it to the pool; `add_task` binds the pool's progress callback onto the task
(overwriting the constructor's `None`) and appends it at the back of the
FIFO queue. -/
theorem download_enqueues_fixed_sleeptask (m : Machine) (data : Option String) :
    StateMachine.applyTransition m (some "download") data
      = .next { m with dm := { m.dm with task_queue := m.dm.task_queue
          ++ [some { seconds := 10, progress_callback := m.dm.progress_callback }] } } := by
  simp [StateMachine.applyTransition, DownloadManager.add_task, SleepTask.ofDownloadBranch]

/-- C6: the reserved `-PROGRESS-` event always returns the pass/no-op
sentinel `(None, None)` — never a state transition — and, when the state's
window is open, sets the progress bar to the carried value and makes it
visible, except that a value ≥ 100 resets the bar to hidden/zero. -/
theorem progress_event_updates_bar :
    (∀ name window values sec,
      (InitialState.transition_state name window "-PROGRESS-" values sec).result
        = (none, none)) ∧
    (∀ name bar values sec, values.progress < 100 →
      (InitialState.transition_state name (some bar) "-PROGRESS-" values sec).window
        = some ⟨values.progress, true⟩) ∧
    (∀ name bar values sec, (100 : ℚ) ≤ values.progress →
      (InitialState.transition_state name (some bar) "-PROGRESS-" values sec).window
        = some ⟨0, false⟩) := by
  refine ⟨?_, ?_, ?_⟩
  · intro name window values sec
    simp [InitialState.transition_state]
  · intro name bar values sec h
    simp [InitialState.transition_state, not_le.mpr h]
  · intro name bar values sec h
    simp [InitialState.transition_state, h]

/-- C6 witness: a report of 50 renders `(50, visible)`, a report of 100
resets the bar to `(0, hidden)`; both return the pass sentinel. -/
theorem progress_event_updates_bar_witness :
    (InitialState.transition_state "initial" (some ⟨0, false⟩) "-PROGRESS-"
      ⟨"", 50⟩ none).result = (none, none) ∧
    (InitialState.transition_state "initial" (some ⟨0, false⟩) "-PROGRESS-"
      ⟨"", 50⟩ none).window = some ⟨50, true⟩ ∧
    (InitialState.transition_state "initial" (some ⟨0, false⟩) "-PROGRESS-"
      ⟨"", 100⟩ none).window = some ⟨0, false⟩ :=
  ⟨progress_event_updates_bar.1 "initial" (some ⟨0, false⟩) ⟨"", 50⟩ none,
   progress_event_updates_bar.2.1 "initial" ⟨0, false⟩ ⟨"", 50⟩ none (by norm_num),
   progress_event_updates_bar.2.2 "initial" ⟨0, false⟩ ⟨"", 100⟩ none (by norm_num)⟩

theorem poolInv_poolInit (n : ℕ) (tasks : List SleepTask) :
    PoolInv n tasks [] (poolInit n tasks) := by
  refine ⟨[], tasks, n, rfl, le_refl n, ?_, rfl, ?_, fun h => absurd h (lt_irrefl n)⟩
  · simp [poolInit]
  · simp [poolInit]

/-- C7: `stop` enqueues exactly one poison sentinel per worker; a terminated
worker executes nothing further; a worker terminates only on dequeuing a
sentinel; and in any complete execution (all workers terminated) of a pool
of `n ≥ 1` workers holding `k` submitted tasks plus the sentinels, the
`run()` invocations are exactly the `k` tasks, each exactly once, in FIFO
order — for every interleaving `sched` of the workers. -/
theorem worker_pool_exactly_once (n : ℕ) (hn : 1 ≤ n) (tasks : List SleepTask)
    (sched : List (Fin n))
    (hterm : (poolRun (poolInit n tasks) sched).alive = ∅) :
    (∀ dm : DownloadManager,
      (DownloadManager.stop dm).task_queue
        = dm.task_queue ++ List.replicate dm.num_workers none) ∧
    (∀ (s : PoolState n) (w : Fin n), w ∉ s.alive → poolStep s w = s) ∧
    (∀ (s : PoolState n) (w : Fin n), w ∈ s.alive → w ∉ (poolStep s w).alive →
      s.queue.head? = some none) ∧
    (poolRun (poolInit n tasks) sched).executed = tasks := by
  refine ⟨fun dm => rfl, ?_, ?_, ?_⟩
  · intro s w hw
    simp [poolStep, hw]
  · intro s w hw hw'
    cases hq : s.queue with
    | nil =>
      simp only [poolStep, hw, if_true, hq] at hw'
      exact absurd trivial hw'
    | cons head rest =>
      cases head with
      | none => rfl
      | some t =>
        simp only [poolStep, hw, if_true, hq] at hw'
        exact absurd trivial hw'
  · obtain ⟨done, rest, m, htasks, hmn, hq, hex, hcard, hlast⟩ :=
      poolInv_run (poolInv_poolInit n tasks) sched
    have hm0 : m = 0 := by rw [← hcard, hterm, Finset.card_empty]
    have hrest : rest = [] := hlast (by omega)
    rw [hex, htasks, hrest, List.append_nil]

/-- C7 witness: two workers, three tasks, a concrete interleaving that
terminates both workers; the executed list is exactly the three tasks. -/
theorem worker_pool_exactly_once_witness :
    (poolRun (poolInit 2 [⟨1, none⟩, ⟨2, none⟩, ⟨3, none⟩]) [0, 0, 0, 0, 1]).executed
      = [⟨1, none⟩, ⟨2, none⟩, ⟨3, none⟩] :=
  (worker_pool_exactly_once 2 (by decide) [⟨1, none⟩, ⟨2, none⟩, ⟨3, none⟩]
    [0, 0, 0, 0, 1] (by decide)).2.2.2

/-- C8: a task enqueued via `add_task` after `stop` has placed the poison
sentinels sits behind all `n` sentinels in the FIFO queue; dequeuing it
would require all `n` workers to have died first, so under every
interleaving it is never executed. -/
theorem enqueue_after_shutdown_never_runs (n : ℕ) (tasks : List SleepTask)
    (cb : Option ℕ) (late : SleepTask) (sched : List (Fin n))
    (hlate : ({ late with progress_callback := cb } : SleepTask) ∉ tasks) :
    ({ late with progress_callback := cb } : SleepTask) ∉
      (poolRun
        { queue := ((DownloadManager.stop ⟨tasks.map some, n, cb⟩).add_task late).task_queue,
          alive := Finset.univ, executed := [] } sched).executed := by
  have h0 : PoolInv n tasks [some { late with progress_callback := cb }]
      { queue := ((DownloadManager.stop ⟨tasks.map some, n, cb⟩).add_task late).task_queue,
        alive := Finset.univ, executed := [] } := by
    have hq : ((DownloadManager.stop ⟨tasks.map some, n, cb⟩).add_task late).task_queue
        = tasks.map some ++ List.replicate n none
          ++ [some { late with progress_callback := cb }] := by
      simp [DownloadManager.stop, DownloadManager.add_task]
    rw [hq]
    exact poolInv_init n tasks [some { late with progress_callback := cb }]
  obtain ⟨done, rest, m, htasks, hmn, hq', hex, hcard, hlast⟩ := poolInv_run h0 sched
  rw [hex]
  intro hmem
  exact hlate (by rw [htasks]; exact List.mem_append.mpr (Or.inl hmem))

/-- C8 witness: one worker, one task submitted before shutdown, one task
enqueued after the sentinel: under a concrete schedule the late task is
never run. -/
theorem enqueue_after_shutdown_never_runs_witness :
    ({ seconds := 2, progress_callback := some 0 } : SleepTask) ∉
      (poolRun
        ({ queue := ((DownloadManager.stop
              ⟨List.map some [⟨1, some 0⟩], 1, some 0⟩).add_task ⟨2, none⟩).task_queue,
           alive := Finset.univ, executed := [] } : PoolState 1) [0, 0, 0]).executed :=
  enqueue_after_shutdown_never_runs 1 [⟨1, some 0⟩] (some 0) ⟨2, none⟩ [0, 0, 0] (by decide)

/-- C9: `StateC.transition_state` on `-close_state_c-` returns the close
sentinel `(None, None)` with the window closed; and the StateMachine's
secondary loop (which iterates over the snapshot `secondary_windows[:]`)
removes exactly the first entry whose window matches the event's window,
keeping every entry before and after it — no element is skipped. -/
theorem secondary_close_removes_matched (win : ℕ) (l₁ l₂ : List SecondaryEntry)
    (e : SecondaryEntry) (h₁ : ∀ e' ∈ l₁, e'.window ≠ some win)
    (he : e.window = some win) :
    StateC.transition_state e.name e.window "-close_state_c-" = ((none, none), none) ∧
    StateMachine.handleSecondaryEvent win "-close_state_c-" (l₁ ++ e :: l₂)
      = (l₁ ++ l₂, [e.name]) := by
  constructor
  · simp [StateC.transition_state, he, State.close_window]
  · induction l₁ with
    | nil =>
      simp only [List.nil_append]
      simp [StateMachine.handleSecondaryEvent, he, StateC.transition_state,
        State.close_window]
    | cons a l₁ ih =>
      have ha : ¬ (some win = a.window) :=
        fun hc => h₁ a (List.mem_cons_self a l₁) hc.symm
      have hrec := ih (fun e' he' => h₁ e' (List.mem_cons_of_mem a he'))
      simp only [List.cons_append, StateMachine.handleSecondaryEvent, if_neg ha,
        List.append_eq, hrec]

/-- C9 witness: with secondaries at windows 1, 2, 3 and the close event
arriving from window 2, exactly the window-2 entry is removed; the entries
before and after it survive. -/
theorem secondary_close_removes_matched_witness :
    StateC.transition_state "state_c" (some 2) "-close_state_c-" = ((none, none), none) ∧
    StateMachine.handleSecondaryEvent 2 "-close_state_c-"
      (([⟨"state_c", some 1⟩] : List SecondaryEntry) ++ ⟨"state_c", some 2⟩ :: [⟨"state_c", some 3⟩])
      = ([⟨"state_c", some 1⟩] ++ [⟨"state_c", some 3⟩], ["state_c"]) :=
  secondary_close_removes_matched 2 [⟨"state_c", some 1⟩] [⟨"state_c", some 3⟩]
    ⟨"state_c", some 2⟩ (by decide) rfl

/-- C10: one iteration of `SleepTask.run` faults with a ZeroDivisionError
whenever `seconds = 0` (regardless of the callback), faults with a TypeError
(calling `None`) whenever the callback was left at its default `None` — in
particular for the task built by the parameterless public constructor — and
only with `seconds ≠ 0` and a real callback does it run, reporting
`(elapsed / seconds) * 100` and breaking once that exceeds 100.  Neither
precondition is checked anywhere. -/
theorem sleeptask_run_preconditions :
    (∀ (cb : Option ℕ) (elapsed : ℚ),
      SleepTask.runIter ⟨0, cb⟩ elapsed = .error .zeroDivisionError) ∧
    (∀ (s elapsed : ℚ), s ≠ 0 →
      SleepTask.runIter ⟨s, none⟩ elapsed = .error .typeErrorNoneNotCallable) ∧
    (∀ elapsed : ℚ,
      SleepTask.runIter SleepTask.defaultTask elapsed
        = .error .typeErrorNoneNotCallable) ∧
    (∀ (s : ℚ) (cb : ℕ) (elapsed : ℚ), s ≠ 0 →
      SleepTask.runIter ⟨s, some cb⟩ elapsed
        = .ok (elapsed / s * 100, decide (100 < elapsed / s * 100))) := by
  have h4 : (4 : ℚ) ≠ 0 := by norm_num
  refine ⟨?_, ?_, ?_, ?_⟩
  · intro cb elapsed
    simp [SleepTask.runIter, pydiv, Except.bind]
  · intro s elapsed hs
    simp [SleepTask.runIter, pydiv, hs, callCallback, Except.bind]
  · intro elapsed
    simp [SleepTask.runIter, SleepTask.defaultTask, pydiv, h4, callCallback, Except.bind]
  · intro s cb elapsed hs
    simp [SleepTask.runIter, pydiv, hs, callCallback, Except.bind]

/-- C10 witness: the default-constructed task faults on its first iteration;
with the preconditions met (`seconds = 4`, callback `0`) the iteration
succeeds and reports 50% at elapsed time 2. -/
theorem sleeptask_run_preconditions_witness :
    SleepTask.runIter ⟨0, some 0⟩ 1 = .error .zeroDivisionError ∧
    SleepTask.runIter SleepTask.defaultTask 1 = .error .typeErrorNoneNotCallable ∧
    SleepTask.runIter ⟨4, some 0⟩ 2 = .ok (50, false) := by
  refine ⟨sleeptask_run_preconditions.1 (some 0) 1,
    sleeptask_run_preconditions.2.2.1 1, ?_⟩
  have h := sleeptask_run_preconditions.2.2.2 4 0 2 (by norm_num)
  have h2 : ((2 : ℚ) / 4 * 100, decide ((100 : ℚ) < 2 / 4 * 100)) = ((50 : ℚ), false) := by
    norm_num
  rw [h, h2]
